import Mathlib

/-!
Shallow embedding of the annotation / coordinate-mapping core of the
detection-review dashboard.

Sources embedded (TypeScript):
* `src/app/label.tsx` — the consolidated dashboard (`UATDashboard`): session
  state, `processFile`, `convertPDFToImages`, `detectObjects`, `drawCanvas`,
  `drawBox`, `handleCanvasClick`, `goToPreviousPage` / `goToNextPage`,
  `handleZoomIn` / `handleZoomOut` / `handleResetZoom`.
* `src/unnamed/part_002` — the older single-image dashboard variant
  (image-only uploads, 10MB limit).
* `src/unnamed/part_003` — the results-viewer variant
  (zoom clamp [0.25, 5], pan state, ctrl+wheel zoom).
* `src/app/api/save-result/route.ts` — the file-backed persistence API
  (`readResultFile`, `GET`, `POST`, `DELETE`).

JavaScript numbers are modelled as `ℚ` (all the arithmetic the claims touch
is exact in rationals).  Ambient browser values (decoded image dimensions,
data URLs, text measurement, elapsed times) are passed as explicit
parameters.  UI-only state that no claim mentions (labeledImages, backend
url, uat note, threshold sliders, displayed file-size string) is omitted
from the session model.
-/

/-- `Detection` (label.tsx lines 11–17): one model-predicted box.
`bbox` is the `[x, y, w, h]` array, in natural-image pixels. -/
structure BBox where
  x : ℚ
  y : ℚ
  w : ℚ
  h : ℚ
deriving DecidableEq, Repr

structure Detection where
  class_id : ℤ
  class_name : String
  confidence : ℚ
  bbox : BBox
  page : Option Nat
deriving DecidableEq, Repr

/-- `BoundingBox extends Detection` (label.tsx lines 19–22): a detection plus
its session-local id and display color. -/
structure BoundingBox extends Detection where
  id : String
  color : String
deriving DecidableEq, Repr

/-- `PDFPageImage` (label.tsx lines 41–46). -/
structure PDFPageImage where
  pageNumber : Nat
  imageUrl : String
  width : ℚ
  height : ℚ
deriving DecidableEq, Repr

/-- `CLASS_COLORS` table (label.tsx lines 48–56). -/
def CLASS_COLORS : List (String × String) :=
  [("Text", "#a855f7"), ("Title", "#22c55e"), ("Section header", "#ef4444"),
   ("Picture", "#f97316"), ("Table", "#eab308"), ("Signature", "#ec4899"),
   ("Logo", "#92400e")]

/-- `getClassColor` (label.tsx lines 62–64): lookup with gray default. -/
def getClassColor (className : String) : String :=
  (CLASS_COLORS.lookup className).getD "#6b7280"

/-- `generateId` (label.tsx lines 66–70): the module-level counter is
threaded explicitly; returns the fresh id and the new counter value. -/
def generateId (idCounter : Nat) : String × Nat :=
  ("box_" ++ toString (idCounter + 1), idCounter + 1)

/-- JS `String.prototype.startsWith`, as a character-list prefix test
(kernel-computable, unlike the byte-position-based core `String` API). -/
def jsStartsWith (s pre : String) : Bool := pre.data.isPrefixOf s.data

/-- JS `String.prototype.endsWith`, as a character-list suffix test. -/
def jsEndsWith (s suf : String) : Bool := suf.data.isSuffixOf s.data

/-- JS `String.prototype.toLowerCase` (ASCII range, which is all the code
compares). -/
def jsToLower (s : String) : String := ⟨s.data.map Char.toLower⟩

/-- `MAX_FILE_SIZE` (label.tsx line 59): 100MB, in bytes. -/
def MAX_FILE_SIZE : Nat := 100 * 1024 * 1024

/-- natural size pair, per `imageNaturalSize` state `{width, height}`. -/
structure NatSize where
  width : ℚ
  height : ℚ
deriving DecidableEq, Repr

/-- Identity of an uploaded `File`: the fields `processFile` inspects. -/
structure FileMeta where
  name : String
  type : String
  size : Nat
deriving DecidableEq, Repr

/-- The session state of `UATDashboard` (label.tsx lines 73–102), restricted
to the fields the specified behaviour touches. -/
structure Session where
  currentImage : Option String
  currentImageFile : Option FileMeta
  imageName : String
  boxes : List BoundingBox
  selectedBoxId : Option String
  imageNaturalSize : NatSize
  isDetecting : Bool
  error : Option String
  processingTime : Option ℚ
  imageLoaded : Bool
  isPDF : Bool
  totalPages : Nat
  currentPage : Nat
  pdfPages : List PDFPageImage
  zoom : ℚ
  pdfJsLoaded : Bool
deriving DecidableEq, Repr

/-- The initial state of all the `useState` hooks. -/
def initialSession : Session :=
  { currentImage := none, currentImageFile := none, imageName := "",
    boxes := [], selectedBoxId := none,
    imageNaturalSize := ⟨0, 0⟩, isDetecting := false, error := none,
    processingTime := none, imageLoaded := false, isPDF := false,
    totalPages := 1, currentPage := 1, pdfPages := [], zoom := 1,
    pdfJsLoaded := false }

/-! ## Coordinate mapping (Coordinate Mapper)

Natural→display: `drawCanvas` (label.tsx lines 181–182) computes
`scaleX = img.width / currentPageData.width`,
`scaleY = img.height / currentPageData.height` and `drawBox`
(lines 546–549) multiplies each coordinate by the per-axis factor.

Display→natural: `handleCanvasClick` (lines 578–581) computes
`scaleX = refWidth / canvas.width`, `scaleY = refHeight / canvas.height`
and multiplies the canvas-relative click point by those factors. -/

/-- The natural→display point map used by rendering: multiply by
`canvasW / naturalW` and `canvasH / naturalH` (label.tsx 181–182, 546–549). -/
def mapNaturalToDisplay (naturalW naturalH canvasW canvasH : ℚ)
    (p : ℚ × ℚ) : ℚ × ℚ :=
  (p.1 * (canvasW / naturalW), p.2 * (canvasH / naturalH))

/-- The display→natural point map used by click hit-testing: multiply by
`refWidth / canvas.width` and `refHeight / canvas.height`
(label.tsx 578–581). -/
def mapDisplayToNatural (naturalW naturalH canvasW canvasH : ℚ)
    (q : ℚ × ℚ) : ℚ × ℚ :=
  (q.1 * (naturalW / canvasW), q.2 * (naturalH / canvasH))

/-! ## Annotation renderer -/

/-- Commands issued to the 2D canvas context, in order. -/
inductive DrawCmd
  | setCanvasSize (w h : ℚ)
  | clearRect (x y w h : ℚ)
  | drawImage (src : String) (w h : ℚ)
  | fillRect (x y w h : ℚ) (style : String)
  | strokeRect (x y w h : ℚ) (style : String) (lineWidth : ℚ)
  | fillText (text : String) (x y : ℚ) (style : String)
deriving DecidableEq, Repr

/-- `confidence.toFixed(2)` for the label chip text: two-decimal rendering
of a nonnegative rational (round half up). -/
def toFixed2 (q : ℚ) : String :=
  let n : ℤ := ⌊q * 100 + 1/2⌋
  let frac := n % 100
  toString (n / 100) ++ "." ++
    (if frac < 10 then "0" ++ toString frac else toString frac)

/-- `drawBox` (label.tsx lines 537–567): scales the stored natural-space
bbox by the per-call factors and emits fill / stroke / label commands.
`measureText` stands for `ctx.measureText(..).width`. -/
def drawBox (measureText : String → ℚ) (box : BoundingBox)
    (isSelected : Bool) (scaleX scaleY : ℚ) : List DrawCmd :=
  let scaledX := box.bbox.x * scaleX
  let scaledY := box.bbox.y * scaleY
  let scaledWidth := box.bbox.w * scaleX
  let scaledHeight := box.bbox.h * scaleY
  let labelText := box.class_name ++ " " ++ toFixed2 box.confidence
  let textWidth := measureText labelText
  [ .fillRect scaledX scaledY scaledWidth scaledHeight (box.color ++ "1A"),
    .strokeRect scaledX scaledY scaledWidth scaledHeight box.color
      (if isSelected then 3 else 2),
    .fillRect scaledX scaledY (textWidth + 6) 18 box.color,
    .fillText labelText (scaledX + 3) (scaledY + 13) "white" ]

/-- The PDF branch of `drawCanvas` (label.tsx lines 162–189).  `imgW`/`imgH`
are the decoded dimensions of the page's data URL (`img.width`,
`img.height`); the canvas is sized to them, and the per-call scale factors
are `img.width / currentPageData.width` etc.  Returns `[]` when no page
data (or no canvas) is available — the frame is skipped. -/
def drawCanvasPDF (s : Session) (imgW imgH : ℚ)
    (measureText : String → ℚ) : List DrawCmd :=
  match s.pdfPages.find? (fun p => p.pageNumber == s.currentPage) with
  | none => []
  | some currentPageData =>
    let scaleX := imgW / currentPageData.width
    let scaleY := imgH / currentPageData.height
    let pageBoxes := s.boxes.filter (fun b => b.page == some s.currentPage)
    [.setCanvasSize imgW imgH, .clearRect 0 0 imgW imgH,
     .drawImage currentPageData.imageUrl imgW imgH]
      ++ pageBoxes.flatMap (fun box =>
          drawBox measureText box (some box.id == s.selectedBoxId) scaleX scaleY)

/-- The single-image branch of `drawCanvas` (label.tsx lines 191–213).
`imageW`/`imageH` are the rendered `<img>` element's box
(`image.width`/`image.height`); `imageNaturalW`/`imageNaturalH` its
intrinsic dimensions (checked against 0 before any division). -/
def drawCanvasSingle (s : Session) (imageW imageH imageNaturalW imageNaturalH : ℚ)
    (measureText : String → ℚ) : List DrawCmd :=
  if s.currentImage = none ∨ s.imageLoaded = false then []
  else if imageNaturalW = 0 ∨ imageNaturalH = 0 then []
  else
    let scaleX := imageW / s.imageNaturalSize.width
    let scaleY := imageH / s.imageNaturalSize.height
    [.setCanvasSize imageW imageH, .clearRect 0 0 imageW imageH,
     .drawImage "image" imageW imageH]
      ++ s.boxes.flatMap (fun box =>
          drawBox measureText box (some box.id == s.selectedBoxId) scaleX scaleY)

/-! ## Click hit-testing, page navigation, zoom -/

/-- `handleCanvasClick` (label.tsx lines 569–591).  `canvasW`/`canvasH` are
`canvas.width`/`canvas.height`; `clickX`/`clickY` are the click point
relative to the canvas box (`e.clientX - rect.left`, `e.clientY - rect.top`). -/
def handleCanvasClick (s : Session) (canvasW canvasH clickX clickY : ℚ) : Session :=
  let currentPageData :=
    if s.isPDF then s.pdfPages.find? (fun p => p.pageNumber == s.currentPage)
    else none
  let refWidth := match currentPageData with
    | some pd => pd.width
    | none => s.imageNaturalSize.width
  let refHeight := match currentPageData with
    | some pd => pd.height
    | none => s.imageNaturalSize.height
  let scaleX := refWidth / canvasW
  let scaleY := refHeight / canvasH
  let x := clickX * scaleX
  let y := clickY * scaleY
  let relevantBoxes :=
    if s.isPDF then s.boxes.filter (fun b => b.page == some s.currentPage)
    else s.boxes
  let clickedBox := relevantBoxes.find? (fun box =>
    decide (box.bbox.x ≤ x) && decide (x ≤ box.bbox.x + box.bbox.w) &&
    decide (box.bbox.y ≤ y) && decide (y ≤ box.bbox.y + box.bbox.h))
  { s with selectedBoxId := clickedBox.map (·.id) }

/-- `goToPreviousPage` (label.tsx lines 600–609): decrements the page and,
when the PageImage is found, updates the displayed image and its natural
size reference.  (It does not touch `selectedBoxId`.) -/
def goToPreviousPage (s : Session) : Session :=
  if 1 < s.currentPage then
    let s1 := { s with currentPage := s.currentPage - 1 }
    match s.pdfPages.find? (fun p => p.pageNumber == s.currentPage - 1) with
    | some prevPage =>
      { s1 with currentImage := some prevPage.imageUrl,
                imageNaturalSize := ⟨prevPage.width, prevPage.height⟩ }
    | none => s1
  else s

/-- `goToNextPage` (label.tsx lines 611–620). -/
def goToNextPage (s : Session) : Session :=
  if s.currentPage < s.totalPages then
    let s1 := { s with currentPage := s.currentPage + 1 }
    match s.pdfPages.find? (fun p => p.pageNumber == s.currentPage + 1) with
    | some nextPage =>
      { s1 with currentImage := some nextPage.imageUrl,
                imageNaturalSize := ⟨nextPage.width, nextPage.height⟩ }
    | none => s1
  else s

/-- `handleZoomIn` (label.tsx line 623): `Math.min(prev + 0.25, 3)`. -/
def handleZoomIn (zoom : ℚ) : ℚ := min (zoom + 1/4) 3

/-- `handleZoomOut` (label.tsx line 627): `Math.max(prev - 0.25, 0.25)`. -/
def handleZoomOut (zoom : ℚ) : ℚ := max (zoom - 1/4) (1/4)

/-- `handleResetZoom` (label.tsx line 631): zoom back to 1. -/
def handleResetZoom : ℚ := 1

/-- Zoom/pan view state of the results-viewer variant
(`src/unnamed/part_003` line 83: `zoom`, `pan`). -/
structure ViewerView where
  zoom : ℚ
  panX : ℚ
  panY : ℚ
deriving DecidableEq, Repr

/-- part_003 line 168: `Math.min(prev + 0.25, 5)`. -/
def handleZoomInViewer (zoom : ℚ) : ℚ := min (zoom + 1/4) 5

/-- part_003 line 169: `Math.max(prev - 0.25, 0.25)`. -/
def handleZoomOutViewer (zoom : ℚ) : ℚ := max (zoom - 1/4) (1/4)

/-- part_003 lines 170–173: reset restores zoom 1 and pan (0, 0). -/
def handleResetZoomViewer : ViewerView := ⟨1, 0, 0⟩

/-- part_003 lines 180–185 (`handleWheel`): ctrl+wheel zoom;
`delta = e.deltaY > 0 ? -0.1 : 0.1`, then
`Math.max(0.25, Math.min(5, prev + delta))`. -/
def handleWheelZoom (zoom : ℚ) (deltaYPos : Bool) : ℚ :=
  let delta : ℚ := if deltaYPos then -(1/10) else 1/10
  max (1/4) (min 5 (zoom + delta))

/-- The zoom operations of the consolidated dashboard (buttons / keyboard
shortcuts all call the three handlers). -/
inductive ZoomOp
  | zin
  | zout
  | reset
deriving DecidableEq, Repr

def zoomStep (z : ℚ) : ZoomOp → ℚ
  | .zin => handleZoomIn z
  | .zout => handleZoomOut z
  | .reset => handleResetZoom

def zoomRun (z : ℚ) (ops : List ZoomOp) : ℚ := ops.foldl zoomStep z

/-- Zoom operations of the results-viewer variant, wheel events included. -/
inductive ViewerZoomOp
  | zin
  | zout
  | reset
  | wheel (deltaYPos : Bool)
deriving DecidableEq, Repr

def viewerStep (v : ViewerView) : ViewerZoomOp → ViewerView
  | .zin => { v with zoom := handleZoomInViewer v.zoom }
  | .zout => { v with zoom := handleZoomOutViewer v.zoom }
  | .reset => handleResetZoomViewer
  | .wheel d => { v with zoom := handleWheelZoom v.zoom d }

def viewerRun (v : ViewerView) (ops : List ViewerZoomOp) : ViewerView :=
  ops.foldl viewerStep v

/-- Button/keyboard zoom ops embedded into the viewer's operation set. -/
def buttonToViewer : ZoomOp → ViewerZoomOp
  | .zin => .zin
  | .zout => .zout
  | .reset => .reset

/-- Invariant: zoom in `[1/4, hi]` and on the quarter-step grid. -/
def zoomOnGrid (hi z : ℚ) : Prop := 1/4 ≤ z ∧ z ≤ hi ∧ ∃ k : ℕ, z = k / 4

/-- The session-level interactive operations (render aside) that the
invariant claims quantify over. -/
inductive UIOp
  | zoomIn
  | zoomOut
  | resetZoom
  | setSelected (id : Option String)
  | canvasClick (canvasW canvasH clickX clickY : ℚ)
  | prevPage
  | nextPage
deriving DecidableEq, Repr

def applyUIOp (s : Session) : UIOp → Session
  | .zoomIn => { s with zoom := handleZoomIn s.zoom }
  | .zoomOut => { s with zoom := handleZoomOut s.zoom }
  | .resetZoom => { s with zoom := handleResetZoom }
  | .setSelected id => { s with selectedBoxId := id }
  | .canvasClick cw ch x y => handleCanvasClick s cw ch x y
  | .prevPage => goToPreviousPage s
  | .nextPage => goToNextPage s

/-! ## Page Rasterizer and file upload (`convertPDFToImages`, `processFile`) -/

/-- The ambient outcome of rendering one PDF page at scale 2.0
(`page.getViewport({scale: 2.0})`, `page.render(..)`, `canvas.toDataURL`):
viewport dimensions and the produced data URL. -/
structure RawPage where
  width : ℚ
  height : ℚ
  dataUrl : String
deriving DecidableEq, Repr

/-- The page loop of `convertPDFToImages` (label.tsx lines 292–328),
starting at page index `i`: renders pages strictly in order; the first
failing render throws and aborts the whole conversion, so no page list is
produced at all. -/
def convertPDFGo : Nat → List (Except String RawPage) → Except String (List PDFPageImage)
  | _, [] => .ok []
  | _, .error e :: _ => .error e
  | i, .ok r :: rest =>
    match convertPDFGo (i + 1) rest with
    | .error e => .error e
    | .ok ps => .ok (⟨i, r.dataUrl, r.width, r.height⟩ :: ps)

/-- `convertPDFToImages` (label.tsx lines 274–336): the input list holds the
render outcome of pages `1..pdf.numPages` in order. -/
def convertPDFToImages (renders : List (Except String RawPage)) :
    Except String (List PDFPageImage) :=
  convertPDFGo 1 renders

/-- Ambient outcome of `FileReader` + `Image` decoding of a single image
upload (label.tsx lines 395–419). -/
inductive ImgLoad
  | ok (dataUrl : String) (naturalW naturalH : ℚ)
  | emptyResult
  | imgError
  | readerError
deriving DecidableEq, Repr

/-- Ambient asynchronous results consumed by `processFile`, by file kind. -/
inductive FileAmbient
  | image (load : ImgLoad)
  | pdf (renders : List (Except String RawPage))
deriving Repr

def msgUnsupportedType : String := "Vui lòng chọn file ảnh (jpg, png) hoặc PDF"

def msgFileTooLarge : String := "File quá lớn! Tối đa 100MB."

def msgPdfJsWait : String := "Đang load PDF.js... Vui lòng đợi vài giây và thử lại."

/-- `processFile` (label.tsx lines 338–421).  Validation (file type, then
size) rejects with a message *before* any of the state resets; on success
the session is reset and repopulated from the ambient decode/rasterize
outcome. -/
def processFile (s : Session) (f : FileMeta) (amb : FileAmbient) : Session :=
  let isImage := jsStartsWith f.type "image/"
  let isPDFFile := (f.type == "application/pdf") || jsEndsWith (jsToLower f.name) ".pdf"
  if !isImage && !isPDFFile then { s with error := some msgUnsupportedType }
  else if MAX_FILE_SIZE < f.size then { s with error := some msgFileTooLarge }
  else
    let s0 := { s with imageLoaded := false, currentImage := none, boxes := [],
                       error := none, processingTime := none, isPDF := isPDFFile,
                       totalPages := 1, currentPage := 1, pdfPages := [],
                       zoom := 1, currentImageFile := some f, imageName := f.name }
    if isPDFFile then
      if !s.pdfJsLoaded then { s0 with error := some msgPdfJsWait }
      else
        match amb with
        | .pdf renders =>
          match convertPDFToImages renders with
          | .error e => { s0 with error := some ("Không thể convert PDF: " ++ e) }
          | .ok pages =>
            let s1 := { s0 with pdfPages := pages, totalPages := pages.length,
                                currentPage := 1 }
            match pages with
            | [] => s1
            | p :: _ =>
              { s1 with currentImage := some p.imageUrl,
                        imageNaturalSize := ⟨p.width, p.height⟩,
                        imageLoaded := true }
        | .image _ => s0
    else
      match amb with
      | .image (.ok url nw nh) =>
        { s0 with imageNaturalSize := ⟨nw, nh⟩, currentImage := some url,
                  imageLoaded := true }
      | .image .emptyResult => { s0 with error := some "Không thể đọc file" }
      | .image .imgError =>
        { s0 with error := some "Không thể load ảnh. File có thể bị lỗi." }
      | .image .readerError => { s0 with error := some "Lỗi khi đọc file" }
      | .pdf _ => s0

def msgUnsupportedTypeV2 : String := "Vui lòng chọn file ảnh (jpg, png, etc)"

def msgFileTooLargeV2 : String := "File quá lớn! Tối đa 10MB."

/-- `processFile` of the older single-image variant
(`src/unnamed/part_002` lines 206–250): images only, 10MB limit. -/
def processFileV2 (s : Session) (f : FileMeta) (load : ImgLoad) : Session :=
  if !(jsStartsWith f.type "image/") then { s with error := some msgUnsupportedTypeV2 }
  else if 10 * 1024 * 1024 < f.size then { s with error := some msgFileTooLargeV2 }
  else
    let s0 := { s with imageLoaded := false, currentImage := none, boxes := [],
                       error := none, processingTime := none,
                       currentImageFile := some f, imageName := f.name }
    match load with
    | .ok url nw nh =>
      { s0 with imageNaturalSize := ⟨nw, nh⟩, currentImage := some url,
                imageLoaded := true }
    | .emptyResult => { s0 with error := some "Không thể đọc file" }
    | .imgError => { s0 with error := some "Không thể load ảnh. File có thể bị lỗi." }
    | .readerError => { s0 with error := some "Lỗi khi đọc file" }

/-! ## Detection response handling (`detectObjects`) -/

/-- One element of `result.pages` in a multi-page backend response. -/
structure PageResp where
  detections : Option (List Detection)
  image_width : Option ℚ
  image_height : Option ℚ
deriving DecidableEq, Repr

/-- The parsed `/detect` response body; absent fields are `none`. -/
structure DetectResp where
  file_type : Option String
  total_pages : Option Nat
  pages : Option (List PageResp)
  detections : Option (List Detection)
deriving DecidableEq, Repr

/-- JS `x || d` for an optional number: absent *or zero* falls back. -/
def jsOrNat (o : Option Nat) (d : Nat) : Nat :=
  match o with
  | some n => if n = 0 then d else n
  | none => d

/-- JS `x || d` for an optional rational: absent *or zero* falls back. -/
def jsOrQ (o : Option ℚ) (d : ℚ) : ℚ :=
  match o with
  | some q => if q = 0 then d else q
  | none => d

/-- `allDetections.map(det => ({...det, id: generateId(), color:
getClassColor(det.class_name)}))` (label.tsx lines 518–522), threading the
module-level id counter. -/
def assignIdsColors : List Detection → Nat → List BoundingBox × Nat
  | [], c => ([], c)
  | d :: ds, c =>
    let fresh := generateId c
    let rest := assignIdsColors ds fresh.2
    ({ toDetection := d, id := fresh.1, color := getClassColor d.class_name } :: rest.1,
     rest.2)

def msgNoDetections : String :=
  "Không phát hiện được object nào. Thử giảm confidence threshold."

def msgFormatError : String := "Response format không đúng từ backend"

/-- `setBoxes(detections)` plus the zero-detection message
(label.tsx lines 518–528). -/
def applyDetections (s : Session) (c : Nat) (ds : List Detection) : Session × Nat :=
  let r := assignIdsColors ds c
  let s1 := { s with boxes := r.1 }
  if r.1.isEmpty then ({ s1 with error := some msgNoDetections }, r.2) else (s1, r.2)

/-- The response-applying tail of `detectObjects` (label.tsx lines 489–528),
given the parsed body of an OK `/detect` response.  `detectObjects` clears
`error` when it starts (line 463) and sets `processingTime` and
`isDetecting := false` around the branch; no generation/session token is
captured or checked anywhere — the response is applied to whatever session
state is current when it arrives. -/
def detectApplyResponse (s : Session) (idCounter : Nat) (elapsed : ℚ)
    (resp : DetectResp) : Session × Nat :=
  let s1 := { s with error := none, processingTime := some elapsed,
                     isDetecting := false }
  if resp.file_type == some "pdf" && resp.pages.isSome then
    let pgs := resp.pages.getD []
    let s2 := { s1 with totalPages := jsOrNat resp.total_pages 1 }
    let allDetections := pgs.foldl
      (fun acc p => match p.detections with
        | some ds => acc ++ ds
        | none => acc) []
    let s3 := match pgs with
      | [] => s2
      | p0 :: _ =>
        { s2 with imageNaturalSize :=
            ⟨jsOrQ p0.image_width 595, jsOrQ p0.image_height 842⟩ }
    applyDetections s3 idCounter allDetections
  else
    match resp.detections with
    | some ds => applyDetections { s1 with totalPages := 1 } idCounter ds
    | none => ({ s1 with error := some msgFormatError }, idCounter)

/-- The `catch` branch of `detectObjects` (label.tsx lines 529–534): a
transport/thrown failure only sets the failure message — the previous
boxes are untouched. -/
def detectCatch (s : Session) (msg : String) : Session :=
  { s with error := some ("Lỗi khi phát hiện: " ++ msg), isDetecting := false }

/-- Events of the single-threaded, cooperatively scheduled session: an
upload being processed, or a `/detect` response arriving. -/
inductive AsyncEvent
  | upload (f : FileMeta) (amb : FileAmbient)
  | detectResponse (elapsed : ℚ) (resp : DetectResp)
deriving Repr

def stepEvent : Session × Nat → AsyncEvent → Session × Nat
  | (s, c), .upload f amb => (processFile s f amb, c)
  | (s, c), .detectResponse el resp => detectApplyResponse s c el resp

def runEvents (sc : Session × Nat) (evts : List AsyncEvent) : Session × Nat :=
  evts.foldl stepEvent sc

/-! ## Persistence API (`src/app/api/save-result/route.ts`) -/

/-- `DetectionResult` (route.ts lines 10–24): one persisted record. -/
structure SavedRecord where
  id : String
  imageName : String
  imageData : String
  imageSizeW : ℚ
  imageSizeH : ℚ
  detections : List Detection
  uatStatus : String
  uatNote : String
  timestamp : String
deriving DecidableEq, Repr

/-- `ResultFile` (route.ts lines 26–29); `lastUpdated` may be absent at
runtime when the stored JSON lacks it. -/
structure ResultFile where
  results : List SavedRecord
  lastUpdated : Option String
deriving DecidableEq, Repr

def emptyData : ResultFile := ⟨[], some ""⟩

/-- What `JSON.parse` + the `as ResultFile` cast yields: `results` is `none`
when the key is absent or not an array (`!data.results ||
!Array.isArray(data.results)`), and `lastUpdated` may be absent. -/
structure ParsedData where
  results : Option (List SavedRecord)
  lastUpdated : Option String
deriving DecidableEq, Repr

/-- The semantically distinct states of the backing file's content that
`readResultFile` branches on: trimmed-empty text, text `JSON.parse`
throws on, or text parsing to a value `d`. -/
inductive RawContent
  | blank
  | malformed
  | json (d : ParsedData)
deriving DecidableEq, Repr

/-- State of the backing `result.json` file: missing, or present with some
content. -/
inductive FileState
  | missing
  | content (c : RawContent)
deriving DecidableEq, Repr

/-- `fs.writeFileSync(RESULT_FILE, JSON.stringify(rf), 'utf-8')`: the file
now holds well-formed JSON for `rf`. -/
def writeResultFile (rf : ResultFile) : FileState :=
  .content (.json ⟨some rf.results, rf.lastUpdated⟩)

/-- `readResultFile` (route.ts lines 32–67).  Total: every file state yields
a well-formed `ResultFile`.  A missing, blank, or unparsable file is
replaced on disk by the empty store; parsed JSON without a `results` array
yields an empty result but leaves the file as it is. -/
def readResultFile : FileState → ResultFile × FileState
  | .missing => (emptyData, writeResultFile emptyData)
  | .content .blank => (emptyData, writeResultFile emptyData)
  | .content .malformed => (emptyData, writeResultFile emptyData)
  | .content (.json d) =>
    match d.results with
    | none => ({ results := [], lastUpdated := some (d.lastUpdated.getD "") },
               .content (.json d))
    | some rs => ({ results := rs, lastUpdated := d.lastUpdated },
                  .content (.json d))

/-- `GET` (route.ts lines 70–78): responds with `readResultFile`'s value
(the surrounding catch is unreachable since `readResultFile` recovers every
failure itself). -/
def GETresult (fs : FileState) : ResultFile × FileState := readResultFile fs

/-- The two response shapes `POST` produces on the duplicate-check path. -/
inductive PostOutcome
  | success (totalResults : Nat) (saved : SavedRecord)
  | duplicateConflict (message : String)
deriving DecidableEq, Repr

/-- HTTP status of the response: 200 for success, 409 for the conflict. -/
def PostOutcome.status : PostOutcome → Nat
  | .success _ _ => 200
  | .duplicateConflict _ => 409

/-- The `error` field of the response body. -/
def PostOutcome.errorField : PostOutcome → Option String
  | .success _ _ => none
  | .duplicateConflict _ => some "duplicate"

/-- `POST` (route.ts lines 81–126).  `genId` stands for the ambient
`${Date.now()}_${Math.random()...}` suffix and `ts` for
`new Date().toISOString()`. -/
def POSTresult (fs : FileState) (newResult : SavedRecord) (genId ts : String) :
    PostOutcome × FileState :=
  let rd := readResultFile fs
  let existingData := rd.1
  let fs1 := rd.2
  if existingData.results.any
      (fun r => jsToLower r.imageName == jsToLower newResult.imageName) then
    (.duplicateConflict ("Ảnh \"" ++ newResult.imageName ++ "\" đã được lưu trước đó!"),
     fs1)
  else
    let saved := { newResult with id := "result_" ++ genId, timestamp := ts }
    let updated : ResultFile :=
      { results := existingData.results ++ [saved], lastUpdated := some ts }
    (.success updated.results.length saved, writeResultFile updated)

/-! ## Concrete fixtures for the counterexamples and witnesses -/

/-- A 2-page PDF session with a detection on page 1 currently selected. -/
def c2Session : Session :=
  { initialSession with
      isPDF := true, totalPages := 2, currentPage := 1,
      currentImage := some "page1.png", imageLoaded := true,
      imageNaturalSize := ⟨1190, 1684⟩,
      pdfPages := [⟨1, "page1.png", 1190, 1684⟩, ⟨2, "page2.png", 1190, 1684⟩],
      boxes := [{ toDetection :=
                    ⟨1, "Title", 1, ⟨10, 10, 100, 20⟩, some 1⟩,
                  id := "box_1", color := "#22c55e" }],
      selectedBoxId := some "box_1" }

/-- First uploaded image file of the C3 interleaving. -/
def c3FileA : FileMeta := ⟨"a.png", "image/png", 1000⟩

/-- Second uploaded image file, superseding the first. -/
def c3FileB : FileMeta := ⟨"b.png", "image/png", 1000⟩

/-- The detection the backend found in `a.png`. -/
def c3StaleDetection : Detection := ⟨1, "Title", 1, ⟨10, 10, 100, 20⟩, none⟩

/-- The `/detect` response computed for `a.png`, arriving only after
`b.png` has been uploaded. -/
def c3StaleResp : DetectResp := ⟨none, none, none, some [c3StaleDetection]⟩

/-- upload `a.png` → start detect on it → upload `b.png` → the stale
response for `a.png` arrives. -/
def c3Trace : List AsyncEvent :=
  [ .upload c3FileA (.image (.ok "data:a" 800 600)),
    .upload c3FileB (.image (.ok "data:b" 640 480)),
    .detectResponse 1 c3StaleResp ]

/-- The session after the stale response has been applied. -/
def c3Final : Session := (runEvents (initialSession, 0) c3Trace).1

/-- A concrete already-saved record for the C4 witness. -/
def c4Saved : SavedRecord :=
  ⟨"result_1", "Photo.PNG", "data:image/png;base64,AAA", 800, 600, [],
   "pass", "", "2025-01-01T00:00:00.000Z"⟩

/-- The record a second save attempts to persist under a name differing
only in case. -/
def c4New : SavedRecord :=
  ⟨"", "photo.png", "data:image/png;base64,BBB", 800, 600, [],
   "fail", "blurry", ""⟩

/-! ## Theorems -/

/-- C1: the display-to-natural mapping used by click hit-testing (multiply
by `refWidth / canvas.width`, `refHeight / canvas.height`) inverts the
natural-to-display mapping used by rendering (multiply by
`canvas.width / naturalWidth`, `canvas.height / naturalHeight`): for
positive natural and canvas dimensions the round trip returns the original
point exactly in rational arithmetic, hence a fortiori within any
floating-point tolerance. -/
theorem roundtrip_display_natural
    (naturalW naturalH canvasW canvasH : ℚ) (p : ℚ × ℚ)
    (hnW : 0 < naturalW) (hnH : 0 < naturalH)
    (hcW : 0 < canvasW) (hcH : 0 < canvasH) :
    mapDisplayToNatural naturalW naturalH canvasW canvasH
      (mapNaturalToDisplay naturalW naturalH canvasW canvasH p) = p := by
  unfold mapNaturalToDisplay mapDisplayToNatural
  have hnW' : naturalW ≠ 0 := ne_of_gt hnW
  have hnH' : naturalH ≠ 0 := ne_of_gt hnH
  have hcW' : canvasW ≠ 0 := ne_of_gt hcW
  have hcH' : canvasH ≠ 0 := ne_of_gt hcH
  obtain ⟨px, py⟩ := p
  simp only [Prod.mk.injEq]
  constructor <;> field_simp

/-- C1 witness: the round trip at a concrete configuration (natural
800×600, canvas 400×300, point (50, 15)). -/
theorem roundtrip_display_natural_witness :
    (0 : ℚ) < 800 ∧ (0 : ℚ) < 600 ∧ (0 : ℚ) < 400 ∧ (0 : ℚ) < 300 ∧
    mapDisplayToNatural 800 600 400 300
      (mapNaturalToDisplay 800 600 400 300 (50, 15)) = (50, 15) :=
  ⟨by norm_num, by norm_num, by norm_num, by norm_num,
   roundtrip_display_natural 800 600 400 300 (50, 15)
     (by norm_num) (by norm_num) (by norm_num) (by norm_num)⟩

/-- C2 counterexample: in a 2-page PDF session with detection `box_1`
selected, navigating from page 1 to page 2 does change the current page
and displayed PageImage, but the selected detection id is *not* reset to
none — `goToNextPage`/`goToPreviousPage` never touch `selectedBoxId`. -/
theorem page_change_keeps_selection_cex :
    c2Session.isPDF = true ∧
    c2Session.selectedBoxId = some "box_1" ∧
    (goToNextPage c2Session).currentPage = 2 ∧
    (goToNextPage c2Session).currentImage = some "page2.png" ∧
    ¬ (goToNextPage c2Session).selectedBoxId = none := by
  refine ⟨rfl, rfl, by decide, by decide, by decide⟩

/-- C2 (amended): a page-change operation updates the current page, the
displayed PageImage and its natural size reference, but leaves the
selected detection id (and every other session field) unchanged —
selection persists across pages. -/
theorem page_change_updates_page_not_selection (s : Session) :
    (goToNextPage s).selectedBoxId = s.selectedBoxId ∧
    (goToPreviousPage s).selectedBoxId = s.selectedBoxId ∧
    (∀ pg, s.currentPage < s.totalPages →
      s.pdfPages.find? (fun p => p.pageNumber == s.currentPage + 1) = some pg →
      goToNextPage s = { s with currentPage := s.currentPage + 1,
                                 currentImage := some pg.imageUrl,
                                 imageNaturalSize := ⟨pg.width, pg.height⟩ }) ∧
    (∀ pg, 1 < s.currentPage →
      s.pdfPages.find? (fun p => p.pageNumber == s.currentPage - 1) = some pg →
      goToPreviousPage s = { s with currentPage := s.currentPage - 1,
                                     currentImage := some pg.imageUrl,
                                     imageNaturalSize := ⟨pg.width, pg.height⟩ }) := by
  refine ⟨?_, ?_, ?_, ?_⟩
  · unfold goToNextPage
    split
    · split <;> rfl
    · rfl
  · unfold goToPreviousPage
    split
    · split <;> rfl
    · rfl
  · intro pg h1 h2
    unfold goToNextPage
    rw [if_pos h1, h2]
  · intro pg h1 h2
    unfold goToPreviousPage
    rw [if_pos h1, h2]

/-- C2 witness: the amended behaviour evaluated on the concrete 2-page
session. -/
theorem page_change_updates_page_not_selection_witness :
    (goToNextPage c2Session).selectedBoxId = c2Session.selectedBoxId ∧
    goToNextPage c2Session =
      { c2Session with currentPage := 2, currentImage := some "page2.png",
                       imageNaturalSize := ⟨1190, 1684⟩ } := by
  have h := page_change_updates_page_not_selection c2Session
  refine ⟨h.1, ?_⟩
  have h2 := h.2.2.1 ⟨2, "page2.png", 1190, 1684⟩ (by decide) (by decide)
  simpa using h2

/-- Assigning fresh ids and colors does not alter the underlying
detections. -/
theorem assignIdsColors_map_toDetection (ds : List Detection) (c : Nat) :
    ((assignIdsColors ds c).1).map (·.toDetection) = ds := by
  induction ds generalizing c with
  | nil => rfl
  | cons d ds ih => simp [assignIdsColors, ih]

/-- `applyDetections` installs exactly the freshly-tagged detections and
touches no other field than `boxes` and (in the empty case) `error`. -/
theorem applyDetections_boxes (s : Session) (c : Nat) (ds : List Detection) :
    (applyDetections s c ds).1.boxes = (assignIdsColors ds c).1 ∧
    (applyDetections s c ds).1.currentImageFile = s.currentImageFile ∧
    (applyDetections s c ds).1.imageName = s.imageName := by
  unfold applyDetections
  cases h : (assignIdsColors ds c).1.isEmpty <;> simp [h]

/-- C3 counterexample: upload `a.png`, start detection on it, upload
`b.png` (which resets `boxes` to `[]`), then let the response computed for
`a.png` arrive.  The stale response is *not* discarded: its detections are
installed in the session that now belongs to `b.png`.  (The claim says the
final `boxes` would still be `[]`.) -/
theorem stale_response_applied_cex :
    c3Final.currentImageFile = some c3FileB ∧
    c3Final.imageName = "b.png" ∧
    c3Final.boxes.map (·.toDetection) = [c3StaleDetection] ∧
    ¬ c3Final.boxes = [] := by
  refine ⟨by decide, by decide, by decide, by decide⟩

/-- C3 (amended): the implementation captures no generation/version token:
`detectObjects` applies a successful detection response unconditionally to
whatever session state is current when it arrives — the installed boxes
are exactly the response's detections, and the current file identity
(possibly a newer upload's) is untouched rather than compared against. -/
theorem detect_response_applied_unconditionally
    (s : Session) (c : Nat) (el : ℚ) (ds : List Detection) :
    ((detectApplyResponse s c el ⟨none, none, none, some ds⟩).1.boxes).map
        (·.toDetection) = ds ∧
    (detectApplyResponse s c el ⟨none, none, none, some ds⟩).1.currentImageFile
        = s.currentImageFile := by
  have hred : detectApplyResponse s c el ⟨none, none, none, some ds⟩ =
      applyDetections { s with error := none, processingTime := some el,
                               isDetecting := false, totalPages := 1 } c ds := rfl
  rw [hred]
  have h := applyDetections_boxes
    { s with error := none, processingTime := some el,
             isDetecting := false, totalPages := 1 } c ds
  exact ⟨by rw [h.1]; exact assignIdsColors_map_toDetection ds c, h.2.1⟩

/-- If every page renders, the conversion starting at index `i` yields one
PageImage per page, numbered `i, i+1, ...` in ascending order. -/
theorem convertPDFGo_all_ok (rp : List RawPage) (i : Nat) :
    ∃ ps, convertPDFGo i (rp.map Except.ok) = .ok ps ∧
      ps.map (·.pageNumber) = List.range' i rp.length := by
  induction rp generalizing i with
  | nil => exact ⟨[], rfl, rfl⟩
  | cons r rp ih =>
    obtain ⟨ps, hps, hmap⟩ := ih (i + 1)
    exact ⟨⟨i, r.dataUrl, r.width, r.height⟩ :: ps,
      by simp [convertPDFGo, hps], by simp [hmap, List.range']⟩

/-- The first failing page render aborts the whole conversion. -/
theorem convertPDFGo_first_error (pre : List RawPage) (e : String)
    (rest : List (Except String RawPage)) (i : Nat) :
    convertPDFGo i (pre.map Except.ok ++ .error e :: rest) = .error e := by
  induction pre generalizing i with
  | nil => rfl
  | cons r pre ih => simp [convertPDFGo, ih]

/-- Reduction of `processFile` for a valid PDF upload whose conversion
succeeds. -/
theorem processFile_pdf_ok (s : Session) (f : FileMeta)
    (renders : List (Except String RawPage)) (ps : List PDFPageImage)
    (hpdf : f.type = "application/pdf") (hsize : f.size ≤ MAX_FILE_SIZE)
    (hjs : s.pdfJsLoaded = true)
    (hok : convertPDFToImages renders = .ok ps) :
    (processFile s f (.pdf renders)).pdfPages = ps ∧
    (processFile s f (.pdf renders)).totalPages = ps.length ∧
    (processFile s f (.pdf renders)).error = none := by
  have h1 : jsStartsWith f.type "image/" = false := by rw [hpdf]; decide
  have h2 : ((f.type == "application/pdf") : Bool) = true := by rw [hpdf]; decide
  have h3 : ¬ (MAX_FILE_SIZE < f.size) := Nat.not_lt.mpr hsize
  simp only [processFile, h1, h2, hjs, hok, Bool.not_false, Bool.true_or,
    Bool.not_true, Bool.false_and, Bool.and_false, if_neg h3, if_false,
    Bool.false_eq_true, ite_false]
  cases ps <;> simp

/-- Reduction of `processFile` for a valid PDF upload whose conversion
fails: no PageImages at all are exposed, and the error is surfaced. -/
theorem processFile_pdf_error (s : Session) (f : FileMeta)
    (renders : List (Except String RawPage)) (e : String)
    (hpdf : f.type = "application/pdf") (hsize : f.size ≤ MAX_FILE_SIZE)
    (hjs : s.pdfJsLoaded = true)
    (herr : convertPDFToImages renders = .error e) :
    (processFile s f (.pdf renders)).pdfPages = [] ∧
    (processFile s f (.pdf renders)).error =
      some ("Không thể convert PDF: " ++ e) := by
  have h1 : jsStartsWith f.type "image/" = false := by rw [hpdf]; decide
  have h2 : ((f.type == "application/pdf") : Bool) = true := by rw [hpdf]; decide
  have h3 : ¬ (MAX_FILE_SIZE < f.size) := Nat.not_lt.mpr hsize
  simp only [processFile, h1, h2, hjs, herr, Bool.not_false, Bool.true_or,
    Bool.not_true, Bool.false_and, Bool.and_false, if_neg h3, if_false,
    Bool.false_eq_true, ite_false]
  exact ⟨rfl, rfl⟩

/-- C5: for an N-page PDF whose pages all render, the rasterizer hands the
session exactly N PageImages numbered `1..N` in ascending order; if
rendering fails at some page, the whole load aborts — the session keeps
*no* PageImages (in particular none beyond the failing page) and the
error is surfaced. -/
theorem rasterizer_pages_in_order (s : Session) (f : FileMeta)
    (rawPages pre : List RawPage) (e : String)
    (rest : List (Except String RawPage))
    (hpdf : f.type = "application/pdf") (hsize : f.size ≤ MAX_FILE_SIZE)
    (hjs : s.pdfJsLoaded = true) :
    ((processFile s f (.pdf (rawPages.map Except.ok))).pdfPages.map
        (·.pageNumber) = List.range' 1 rawPages.length ∧
     (processFile s f (.pdf (rawPages.map Except.ok))).totalPages
        = rawPages.length ∧
     (processFile s f (.pdf (rawPages.map Except.ok))).error = none) ∧
    ((processFile s f (.pdf (pre.map Except.ok ++ .error e :: rest))).pdfPages
        = [] ∧
     (processFile s f (.pdf (pre.map Except.ok ++ .error e :: rest))).error
        = some ("Không thể convert PDF: " ++ e)) := by
  obtain ⟨ps, hps, hmap⟩ := convertPDFGo_all_ok rawPages 1
  have hok := processFile_pdf_ok s f (rawPages.map Except.ok) ps hpdf hsize hjs hps
  have hlen : ps.length = rawPages.length := by
    have := congrArg List.length hmap
    simpa using this
  have herr := processFile_pdf_error s f (pre.map Except.ok ++ .error e :: rest)
    e hpdf hsize hjs (convertPDFGo_first_error pre e rest 1)
  exact ⟨⟨by rw [hok.1, hmap], by rw [hok.2.1, hlen], hok.2.2⟩, herr⟩

/-- C5 witness: a 2-page PDF converts to pages numbered `[1, 2]`; the same
upload with page 2 failing exposes no pages and surfaces the error. -/
theorem rasterizer_pages_in_order_witness :
    ((processFile { initialSession with pdfJsLoaded := true }
        ⟨"doc.pdf", "application/pdf", 5000⟩
        (.pdf [Except.ok ⟨1190, 1684, "p1"⟩, Except.ok ⟨1190, 1684, "p2"⟩])).pdfPages.map
      (·.pageNumber) = [1, 2]) ∧
    ((processFile { initialSession with pdfJsLoaded := true }
        ⟨"doc.pdf", "application/pdf", 5000⟩
        (.pdf [Except.ok ⟨1190, 1684, "p1"⟩, Except.error "render failed"])).pdfPages
      = []) := by
  have h := rasterizer_pages_in_order { initialSession with pdfJsLoaded := true }
    ⟨"doc.pdf", "application/pdf", 5000⟩
    [⟨1190, 1684, "p1"⟩, ⟨1190, 1684, "p2"⟩] [⟨1190, 1684, "p1"⟩]
    "render failed" [] rfl (by decide) rfl
  exact ⟨h.1.1, h.2.1⟩

/-- C9: an upload that fails validation — type neither a supported image
nor a PDF, or size over the configured maximum (100MB consolidated, 10MB
in the older variant) — is rejected before any processing with a specific
message, wrong-type and too-large being distinct messages, and the entire
prior session state is left unchanged (only `error` is set). -/
theorem upload_validation_rejects_untouched :
    (∀ (s : Session) (f : FileMeta) (amb : FileAmbient),
      (jsStartsWith f.type "image/" = false →
        ((f.type == "application/pdf") || jsEndsWith (jsToLower f.name) ".pdf")
          = false →
        processFile s f amb = { s with error := some msgUnsupportedType }) ∧
      (MAX_FILE_SIZE < f.size →
        (jsStartsWith f.type "image/" = true ∨
         ((f.type == "application/pdf") || jsEndsWith (jsToLower f.name) ".pdf")
           = true) →
        processFile s f amb = { s with error := some msgFileTooLarge })) ∧
    msgUnsupportedType ≠ msgFileTooLarge ∧
    (∀ (s : Session) (f : FileMeta) (load : ImgLoad),
      (jsStartsWith f.type "image/" = false →
        processFileV2 s f load = { s with error := some msgUnsupportedTypeV2 }) ∧
      (jsStartsWith f.type "image/" = true → 10 * 1024 * 1024 < f.size →
        processFileV2 s f load = { s with error := some msgFileTooLargeV2 })) ∧
    msgUnsupportedTypeV2 ≠ msgFileTooLargeV2 := by
  refine ⟨fun s f amb => ⟨fun h1 h2 => ?_, fun hsz hty => ?_⟩, by decide,
    fun s f load => ⟨fun h1 => ?_, fun h1 hsz => ?_⟩, by decide⟩
  · simp only [processFile, h1, h2, Bool.not_false, Bool.and_self, if_true]
  · have hcond : (!(jsStartsWith f.type "image/") &&
        !((f.type == "application/pdf") || jsEndsWith (jsToLower f.name) ".pdf"))
          = false := by
      rcases hty with hty | hty <;> rw [hty] <;> simp
    simp only [processFile, hcond, Bool.false_eq_true, if_false, if_pos hsz,
      ite_false]
  · simp only [processFileV2, h1, Bool.not_false, if_true]
  · simp only [processFileV2, h1, Bool.not_true, Bool.false_eq_true, if_false,
      if_pos hsz, ite_false]

/-- C9 witness: a text file is rejected with the wrong-type message and a
100MB+1 image with the too-large message, in both implementations, leaving
the prior (initial) session untouched apart from `error`. -/
theorem upload_validation_rejects_untouched_witness :
    processFile initialSession ⟨"notes.txt", "text/plain", 10⟩
        (.image .emptyResult)
      = { initialSession with error := some msgUnsupportedType } ∧
    processFile initialSession ⟨"big.png", "image/png", 104857601⟩
        (.image .emptyResult)
      = { initialSession with error := some msgFileTooLarge } ∧
    processFileV2 initialSession ⟨"doc.pdf", "application/pdf", 10⟩ .emptyResult
      = { initialSession with error := some msgUnsupportedTypeV2 } ∧
    processFileV2 initialSession ⟨"big.png", "image/png", 10485761⟩ .emptyResult
      = { initialSession with error := some msgFileTooLargeV2 } := by
  have h := upload_validation_rejects_untouched
  refine ⟨(h.1 initialSession ⟨"notes.txt", "text/plain", 10⟩
      (.image .emptyResult)).1 (by decide) (by decide),
    (h.1 initialSession ⟨"big.png", "image/png", 104857601⟩
      (.image .emptyResult)).2 (by decide) (Or.inl (by decide)),
    (h.2.2.1 initialSession ⟨"doc.pdf", "application/pdf", 10⟩ .emptyResult).1
      (by decide),
    (h.2.2.1 initialSession ⟨"big.png", "image/png", 10485761⟩ .emptyResult).2
      (by decide) (by decide)⟩

/-- C10: the persistence read path is total and self-healing.  Every state
of the backing file (missing, blank, unparsable JSON, parsed JSON without
a `results` array, well-formed store) yields a well-formed object with a
`results` array, and `GET` just returns it; a missing, blank, or
unparsable file is silently overwritten with the empty store — so data
held in a corrupt file is destroyed (a subsequent read finds an empty
results array) rather than surfaced as an error; a parsed file merely
lacking the `results` array is read as empty but left on disk as it is. -/
theorem read_path_total_selfhealing :
    readResultFile .missing = (emptyData, writeResultFile emptyData) ∧
    readResultFile (.content .blank) = (emptyData, writeResultFile emptyData) ∧
    readResultFile (.content .malformed) = (emptyData, writeResultFile emptyData) ∧
    (∀ lu : Option String,
      readResultFile (.content (.json ⟨none, lu⟩)) =
        ({ results := [], lastUpdated := some (lu.getD "") },
         .content (.json ⟨none, lu⟩))) ∧
    (∀ (rs : List SavedRecord) (lu : Option String),
      readResultFile (.content (.json ⟨some rs, lu⟩)) =
        ({ results := rs, lastUpdated := lu }, .content (.json ⟨some rs, lu⟩))) ∧
    (∀ fs : FileState, GETresult fs = readResultFile fs) ∧
    (readResultFile (readResultFile (.content .malformed)).2).1.results
      = ([] : List SavedRecord) :=
  ⟨rfl, rfl, rfl, fun _ => rfl, fun _ _ => rfl, fun _ => rfl, rfl⟩

/-- C4: a `POST` whose `imageName` case-insensitively matches an
already-saved record returns the duplicate-conflict outcome (HTTP 409,
`error: "duplicate"`) and leaves the persisted store byte-for-byte
unchanged — in particular the results array has the same length and
contents before and after. -/
theorem duplicate_save_conflict
    (rs : List SavedRecord) (lu : Option String) (r newR : SavedRecord)
    (genId ts : String)
    (hmem : r ∈ rs)
    (hname : jsToLower r.imageName = jsToLower newR.imageName) :
    POSTresult (.content (.json ⟨some rs, lu⟩)) newR genId ts =
      (.duplicateConflict
        ("Ảnh \"" ++ newR.imageName ++ "\" đã được lưu trước đó!"),
       .content (.json ⟨some rs, lu⟩)) ∧
    (POSTresult (.content (.json ⟨some rs, lu⟩)) newR genId ts).1.status = 409 ∧
    (POSTresult (.content (.json ⟨some rs, lu⟩)) newR genId ts).1.errorField
      = some "duplicate" ∧
    (readResultFile
      (POSTresult (.content (.json ⟨some rs, lu⟩)) newR genId ts).2).1.results
      = rs := by
  have hdup : rs.any
      (fun x => jsToLower x.imageName == jsToLower newR.imageName) = true := by
    rw [List.any_eq_true]
    exact ⟨r, hmem, by rw [hname]; exact beq_self_eq_true _⟩
  have hpost : POSTresult (.content (.json ⟨some rs, lu⟩)) newR genId ts =
      (.duplicateConflict
        ("Ảnh \"" ++ newR.imageName ++ "\" đã được lưu trước đó!"),
       .content (.json ⟨some rs, lu⟩)) := by
    simp only [POSTresult, readResultFile, hdup, if_true]
  refine ⟨hpost, ?_, ?_, ?_⟩ <;> rw [hpost] <;> rfl


/-- C4 witness: saving `photo.png` over an existing `Photo.PNG` yields the
409 duplicate outcome and leaves the stored results list unchanged. -/
theorem duplicate_save_conflict_witness :
    (POSTresult (.content (.json ⟨some [c4Saved], some "t"⟩)) c4New "g" "ts").1.status
      = 409 ∧
    (POSTresult (.content (.json ⟨some [c4Saved], some "t"⟩)) c4New "g" "ts").1.errorField
      = some "duplicate" ∧
    (readResultFile
      (POSTresult (.content (.json ⟨some [c4Saved], some "t"⟩)) c4New "g" "ts").2).1.results
      = [c4Saved] := by
  have h := duplicate_save_conflict [c4Saved] (some "t") c4Saved c4New "g" "ts"
    (List.mem_singleton.mpr rfl) (by decide)
  exact ⟨h.2.1, h.2.2.1, h.2.2.2⟩

/-- A quarter-step zoom-in clamped at a quarter-grid cap stays on the
grid and in range. -/
theorem zoomOnGrid_step_in (hi z : ℚ) (m : ℕ) (hhi : hi = m / 4)
    (h : zoomOnGrid hi z) : zoomOnGrid hi (min (z + 1/4) hi) := by
  obtain ⟨hl, hu, k, hk⟩ := h
  refine ⟨le_min (by linarith) (by linarith), min_le_right _ _, ?_⟩
  rcases le_total (z + 1/4) hi with hle | hge
  · rw [min_eq_left hle]
    exact ⟨k + 1, by rw [hk]; push_cast; ring⟩
  · rw [min_eq_right hge]
    exact ⟨m, hhi⟩

/-- A quarter-step zoom-out clamped below at 1/4 stays on the grid and in
range. -/
theorem zoomOnGrid_step_out (hi z : ℚ) (h : zoomOnGrid hi z) :
    zoomOnGrid hi (max (z - 1/4) (1/4)) := by
  obtain ⟨hl, hu, k, hk⟩ := h
  refine ⟨le_max_right _ _, max_le (by linarith) (by linarith), ?_⟩
  rcases le_total (z - 1/4) (1/4) with hle | hge
  · rw [max_eq_right hle]
    exact ⟨1, by norm_num⟩
  · rw [max_eq_left hge]
    have hz : (1:ℚ)/2 ≤ z := by linarith
    have hk2 : (2:ℚ) ≤ (k : ℚ) := by
      rw [hk] at hz; linarith
    have hk1 : 1 ≤ k := by
      have h2 : 2 ≤ k := by exact_mod_cast hk2
      omega
    refine ⟨k - 1, ?_⟩
    rw [hk, Nat.cast_sub hk1]
    push_cast
    ring

/-- Every run of the consolidated dashboard's zoom operations preserves the
quarter-grid invariant with cap 3. -/
theorem zoomRun_grid (ops : List ZoomOp) (z : ℚ) (h : zoomOnGrid 3 z) :
    zoomOnGrid 3 (zoomRun z ops) := by
  induction ops generalizing z with
  | nil => exact h
  | cons op rest ih =>
    refine ih (zoomStep z op) ?_
    cases op with
    | zin => exact zoomOnGrid_step_in 3 z 12 (by norm_num) h
    | zout => exact zoomOnGrid_step_out 3 z h
    | reset =>
      exact ⟨by norm_num [zoomStep, handleResetZoom],
        by norm_num [zoomStep, handleResetZoom],
        4, by norm_num [zoomStep, handleResetZoom]⟩

/-- Every run of the viewer's *button* zoom operations preserves the
quarter-grid invariant with cap 5 (zoom only; pan untouched except by
reset). -/
theorem viewerButtonRun_grid (ops : List ZoomOp) (v : ViewerView)
    (h : zoomOnGrid 5 v.zoom) :
    zoomOnGrid 5 (viewerRun v (ops.map buttonToViewer)).zoom := by
  induction ops generalizing v with
  | nil => exact h
  | cons op rest ih =>
    refine ih (viewerStep v (buttonToViewer op)) ?_
    cases op with
    | zin => exact zoomOnGrid_step_in 5 v.zoom 20 (by norm_num) h
    | zout => exact zoomOnGrid_step_out 5 v.zoom h
    | reset =>
      exact ⟨by norm_num [viewerStep, buttonToViewer, handleResetZoomViewer],
        by norm_num [viewerStep, buttonToViewer, handleResetZoomViewer],
        4, by norm_num [viewerStep, buttonToViewer, handleResetZoomViewer]⟩

/-- Every viewer zoom operation, the ctrl+wheel one included, keeps the
zoom inside `[1/4, 5]`. -/
theorem viewerStep_range (v : ViewerView) (op : ViewerZoomOp)
    (h : 1/4 ≤ v.zoom ∧ v.zoom ≤ 5) :
    1/4 ≤ (viewerStep v op).zoom ∧ (viewerStep v op).zoom ≤ 5 := by
  obtain ⟨hl, hu⟩ := h
  cases op with
  | zin =>
    exact ⟨le_min (by linarith) (by norm_num), min_le_right _ _⟩
  | zout =>
    exact ⟨le_max_right _ _, max_le (by linarith) (by norm_num)⟩
  | reset =>
    exact ⟨by norm_num [viewerStep, handleResetZoomViewer],
      by norm_num [viewerStep, handleResetZoomViewer]⟩
  | wheel d =>
    exact ⟨le_max_left _ _, max_le (by norm_num) (min_le_left _ _)⟩

/-- Range preservation along any run of viewer zoom operations. -/
theorem viewerRun_range (ops : List ViewerZoomOp) (v : ViewerView)
    (h : 1/4 ≤ v.zoom ∧ v.zoom ≤ 5) :
    1/4 ≤ (viewerRun v ops).zoom ∧ (viewerRun v ops).zoom ≤ 5 := by
  induction ops generalizing v with
  | nil => exact h
  | cons op rest ih => exact ih (viewerStep v op) (viewerStep_range v op h)

/-- C7 counterexample: one ctrl+wheel zoom-in of the results-viewer variant
(cited in the claim's sources) moves the zoom from the default 1 to 1.1 —
a step of 0.1, not 0.25, leaving the quarter-step grid, so "changes in
fixed steps of 0.25" fails for the zoom operations of the cited code. -/
theorem wheel_zoom_breaks_quarter_grid_cex :
    (viewerRun ⟨1, 0, 0⟩ [.wheel false]).zoom = 11/10 ∧
    ¬ ∃ k : ℕ, (viewerRun ⟨1, 0, 0⟩ [.wheel false]).zoom = k / 4 := by
  have h1 : (viewerRun ⟨1, 0, 0⟩ [.wheel false]).zoom = 11/10 := by
    show max (1/4 : ℚ) (min 5 (1 + 1/10)) = 11/10
    rw [min_eq_right (by norm_num), max_eq_right (by norm_num)]
    norm_num
  refine ⟨h1, ?_⟩
  rw [h1]
  rintro ⟨k, hk⟩
  have h5 : ((5 * k : ℕ) : ℚ) = 22 := by push_cast; linarith
  have h6 : 5 * k = 22 := by exact_mod_cast h5
  omega

/-- C7 (amended): starting from the default zoom 1, every sequence of the
button/keyboard zoom-in, zoom-out, and reset operations keeps zoom in
`[0.25, 3]` (consolidated dashboard) resp. `[0.25, 5]` (results-viewer),
always on the 0.25-step grid; the viewer's ctrl+wheel zoom moves in 0.1
steps — it respects the `[0.25, 5]` clamp but can leave the 0.25 grid;
reset restores zoom 1 (and pan (0,0) in the viewer). -/
theorem zoom_clamped_quarter_steps :
    (∀ ops : List ZoomOp, 1/4 ≤ zoomRun 1 ops ∧ zoomRun 1 ops ≤ 3 ∧
        ∃ k : ℕ, zoomRun 1 ops = k / 4) ∧
    (∀ ops : List ZoomOp,
        1/4 ≤ (viewerRun ⟨1, 0, 0⟩ (ops.map buttonToViewer)).zoom ∧
        (viewerRun ⟨1, 0, 0⟩ (ops.map buttonToViewer)).zoom ≤ 5 ∧
        ∃ k : ℕ, (viewerRun ⟨1, 0, 0⟩ (ops.map buttonToViewer)).zoom = k / 4) ∧
    (∀ ops : List ViewerZoomOp, 1/4 ≤ (viewerRun ⟨1, 0, 0⟩ ops).zoom ∧
        (viewerRun ⟨1, 0, 0⟩ ops).zoom ≤ 5) ∧
    (∀ z : ℚ, zoomStep z .reset = 1) ∧
    (∀ v : ViewerView, viewerStep v .reset = ⟨1, 0, 0⟩) := by
  refine ⟨fun ops => ?_, fun ops => ?_, fun ops => ?_, fun z => rfl,
    fun v => rfl⟩
  · exact zoomRun_grid ops 1 ⟨by norm_num, by norm_num, 4, by norm_num⟩
  · exact viewerButtonRun_grid ops ⟨1, 0, 0⟩ ⟨by norm_num, by norm_num, 4, by norm_num⟩
  · exact viewerRun_range ops ⟨1, 0, 0⟩ ⟨by norm_num, by norm_num⟩

/-- C6: stored detections stay in natural pixel space and are never
mutated.  (a) No interactive operation — zoom in/out/reset, selection
change, canvas-click hit test, page navigation — changes the stored
`boxes` (hence no bbox): scaling is never written back.  (b) Rendering
computes the display-space rectangle per call, as the stored natural-space
bbox multiplied by the current per-axis scale factors of the displayed
page, and only emits draw commands — the session is not an output of the
renderer at all. -/
theorem bbox_natural_space_invariant :
    (∀ (s : Session) (op : UIOp), (applyUIOp s op).boxes = s.boxes) ∧
    (∀ (s : Session) (imgW imgH : ℚ) (m : String → ℚ) (pg : PDFPageImage)
        (box : BoundingBox),
      s.pdfPages.find? (fun p => p.pageNumber == s.currentPage) = some pg →
      box ∈ s.boxes.filter (fun b => b.page == some s.currentPage) →
      DrawCmd.strokeRect (box.bbox.x * (imgW / pg.width))
        (box.bbox.y * (imgH / pg.height)) (box.bbox.w * (imgW / pg.width))
        (box.bbox.h * (imgH / pg.height)) box.color
        (if some box.id == s.selectedBoxId then 3 else 2)
        ∈ drawCanvasPDF s imgW imgH m) := by
  constructor
  · intro s op
    cases op with
    | zoomIn => rfl
    | zoomOut => rfl
    | resetZoom => rfl
    | setSelected id => rfl
    | canvasClick cw ch x y => rfl
    | prevPage =>
      show (goToPreviousPage s).boxes = s.boxes
      unfold goToPreviousPage
      split
      · split <;> rfl
      · rfl
    | nextPage =>
      show (goToNextPage s).boxes = s.boxes
      unfold goToNextPage
      split
      · split <;> rfl
      · rfl
  · intro s imgW imgH m pg box hfind hmem
    unfold drawCanvasPDF
    rw [hfind]
    refine List.mem_append_right _ (List.mem_flatMap.mpr ⟨box, hmem, ?_⟩)
    simp [drawBox]

/-- C6 witness: the invariant evaluated on the concrete 2-page session —
zooming leaves the boxes untouched, and the selected box's stroke command
appears in the render of page 1 with per-call scale factors. -/
theorem bbox_natural_space_invariant_witness :
    (applyUIOp c2Session .zoomIn).boxes = c2Session.boxes ∧
    DrawCmd.strokeRect (10 * (1190 / (1190:ℚ))) (10 * (1684 / (1684:ℚ)))
        (100 * (1190 / (1190:ℚ))) (20 * (1684 / (1684:ℚ))) "#22c55e" 3
      ∈ drawCanvasPDF c2Session 1190 1684 (fun _ => 50) := by
  have h := bbox_natural_space_invariant
  refine ⟨h.1 c2Session .zoomIn, ?_⟩
  have h2 := h.2 c2Session 1190 1684 (fun _ => 50) ⟨1, "page1.png", 1190, 1684⟩
    { toDetection := ⟨1, "Title", 1, ⟨10, 10, 100, 20⟩, some 1⟩,
      id := "box_1", color := "#22c55e" } (by decide) (by decide)
  simpa using h2

/-- A pages array whose every entry has absent or empty `detections`
accumulates nothing. -/
theorem pagesFold_empty (pgs : List PageResp) (acc : List Detection)
    (h : ∀ p ∈ pgs, p.detections = none ∨ p.detections = some []) :
    pgs.foldl (fun acc p => match p.detections with
      | some ds => acc ++ ds
      | none => acc) acc = acc := by
  induction pgs generalizing acc with
  | nil => rfl
  | cons p pgs ih =>
    have hp := h p (List.mem_cons_self p pgs)
    have hrest : ∀ q ∈ pgs, q.detections = none ∨ q.detections = some [] :=
      fun q hq => h q (List.mem_cons_of_mem p hq)
    rcases hp with h1 | h1
    · simp only [List.foldl_cons, h1]
      exact ih acc hrest
    · simp only [List.foldl_cons, h1, List.append_nil]
      exact ih acc hrest

/-- Reduction of the PDF branch of the response handler to
`applyDetections` over the page-concatenated detections. -/
theorem detectApply_pdf_reduce (s : Session) (c : Nat) (el : ℚ)
    (tp : Option Nat) (pgs : List PageResp) :
    detectApplyResponse s c el ⟨some "pdf", tp, some pgs, none⟩ =
      applyDetections
        (match pgs with
          | [] => { s with error := none, processingTime := some el,
                           isDetecting := false, totalPages := jsOrNat tp 1 }
          | p0 :: _ => { s with error := none, processingTime := some el,
                                isDetecting := false, totalPages := jsOrNat tp 1,
                                imageNaturalSize :=
                                  ⟨jsOrQ p0.image_width 595,
                                   jsOrQ p0.image_height 842⟩ }) c
        (pgs.foldl (fun acc p => match p.detections with
          | some ds => acc ++ ds
          | none => acc) []) := rfl

/-- C8: a successful backend response with zero detections is applied, not
treated as a failure.  In single-image shape the handler installs the
empty set (replacing any prior boxes), finishes the detect cycle, and sets
the informational "no detections — lower the confidence threshold"
message; the same holds for a PDF response whose pages all carry empty
detection lists.  That message is distinct from the malformed-response
message and does not carry the failure prefix; the actual failure path
(`catch`) is the one that leaves the prior boxes untouched. -/
theorem zero_detections_not_failure :
    (∀ (s : Session) (c : Nat) (el : ℚ) (tp : Option Nat),
      detectApplyResponse s c el ⟨none, tp, none, some []⟩ =
        ({ s with boxes := [], error := some msgNoDetections,
                  processingTime := some el, isDetecting := false,
                  totalPages := 1 }, c)) ∧
    (∀ (s : Session) (c : Nat) (el : ℚ) (tp : Option Nat) (pgs : List PageResp),
      (∀ p ∈ pgs, p.detections = none ∨ p.detections = some []) →
      (detectApplyResponse s c el ⟨some "pdf", tp, some pgs, none⟩).1.boxes = []
        ∧
      (detectApplyResponse s c el ⟨some "pdf", tp, some pgs, none⟩).1.error
        = some msgNoDetections) ∧
    msgNoDetections ≠ msgFormatError ∧
    (∀ (s : Session) (m : String), (detectCatch s m).boxes = s.boxes ∧
      (detectCatch s m).error = some ("Lỗi khi phát hiện: " ++ m)) ∧
    jsStartsWith msgNoDetections "Lỗi khi phát hiện:" = false := by
  refine ⟨fun s c el tp => rfl, fun s c el tp pgs h => ?_, by decide,
    fun s m => ⟨rfl, rfl⟩, by decide⟩
  have hfold := pagesFold_empty pgs [] h
  rw [detectApply_pdf_reduce, hfold]
  exact ⟨rfl, rfl⟩

/-- C8 witness: the zero-detection outcome evaluated concretely, in both
the single-image shape and a 2-page PDF shape with empty/absent page
detections. -/
theorem zero_detections_not_failure_witness :
    detectApplyResponse initialSession 0 1 ⟨none, none, none, some []⟩ =
      ({ initialSession with boxes := [], error := some msgNoDetections,
                             processingTime := some 1, isDetecting := false,
                             totalPages := 1 }, 0) ∧
    (detectApplyResponse initialSession 0 1
        ⟨some "pdf", some 2,
         some [⟨some [], some 595, some 842⟩, ⟨none, none, none⟩],
         none⟩).1.boxes = [] ∧
    (detectApplyResponse initialSession 0 1
        ⟨some "pdf", some 2,
         some [⟨some [], some 595, some 842⟩, ⟨none, none, none⟩],
         none⟩).1.error = some msgNoDetections := by
  have h := zero_detections_not_failure
  have h2 := h.2.1 initialSession 0 1 (some 2)
    [⟨some [], some 595, some 842⟩, ⟨none, none, none⟩] (by decide)
  exact ⟨h.1 initialSession 0 1 none, h2.1, h2.2⟩
